import Mathlib

/-!
Shallow embedding of the RRC client sync tool (src/sync.py) in Lean 4.

The program extracts rows from a set of database tables, normalizes the
values for JSON transport (DecimalEncoder), and delivers each table to a
remote HTTP API endpoint with a bounded retry loop (sync_table_to_api),
aggregating per-table outcomes into a run summary (sync_all_data_to_api)
whose overall success determines the process exit code (main).

The database driver and the HTTP stack are external collaborators; they
are embedded as explicit environments: a `QueryBehavior` describes what a
cursor does for a given query, and an `AttemptResult` describes what one
HTTP POST to the sync endpoint returns (a response with a status code and
a decoded or undecodable JSON body, a timeout, a connection failure, or
another exception). Everything downstream of those environments follows
the control flow of the Python source.
-/

namespace RRCSync

/-- Scalar column values a database row can carry, as seen by the encoder
in src/sync.py lines 13-21. Arbitrary-precision decimals are modelled as
rationals; the numeric value of the float conversion is kept exact, since
the claims under study concern the shape of the conversion (decimal maps
to a float, dates map to ISO strings), not binary rounding. -/
inductive Value where
  | decimal (q : ℚ)
  | vdate (y m d : Nat)
  | vdatetime (y m d hh mi ss : Nat)
  | str (s : String)
  | int (n : Int)
  | float (q : ℚ)
  | bool (b : Bool)
  | null
deriving DecidableEq

/-- Zero-pad a natural number to two digits, as Python date formatting does. -/
def pad2 (n : Nat) : String :=
  if n < 10 then "0" ++ toString n else toString n

/-- Zero-pad a year to four digits, as Python date formatting does. -/
def pad4 (n : Nat) : String :=
  if n < 10 then "000" ++ toString n
  else if n < 100 then "00" ++ toString n
  else if n < 1000 then "0" ++ toString n
  else toString n

/-- ISO-8601 date string YYYY-MM-DD, as produced by date.isoformat(). -/
def isoDate (y m d : Nat) : String :=
  pad4 y ++ "-" ++ pad2 m ++ "-" ++ pad2 d

/-- ISO-8601 datetime string, as produced by datetime.isoformat() for a
whole-second timestamp. -/
def isoDatetime (y m d hh mi ss : Nat) : String :=
  isoDate y m d ++ "T" ++ pad2 hh ++ ":" ++ pad2 mi ++ ":" ++ pad2 ss

/-- DecimalEncoder.default from src/sync.py lines 13-21, as the per-value
transformation json.dumps applies: a Decimal becomes a float, a date
becomes its ISO date string, a datetime becomes its ISO datetime string
(in the source the date branch also catches datetime, a subclass of date,
with the same isoformat result), and every other scalar passes through
the base serializer unchanged. -/
def normalizeValue : Value → Value
  | .decimal q => .float q
  | .vdate y m d => .str (isoDate y m d)
  | .vdatetime y m d hh mi ss => .str (isoDatetime y m d hh mi ss)
  | v => v

/-- A row record: ordered mapping from column name to value, produced by
dict(zip(columns, row)) in execute_query. -/
abbrev Row := List (String × Value)

/-- Normalization of a whole row, applied when json.dumps serializes the
payload with cls set to DecimalEncoder. -/
def normalizeRow (r : Row) : Row :=
  r.map (fun p => (p.1, normalizeValue p.2))

/-- Decoded JSON body of a sync endpoint response, with the fields the
client reads: a truthiness flag for the `success` field, the optional
`error` message, and the optional `records_processed` count. -/
structure RespBody where
  success : Bool
  error : Option String
  records_processed : Option Nat
deriving DecidableEq

/-- Result of one HTTP POST to the sync endpoint, as observed by the body
of the retry loop in src/sync.py lines 316-384: an HTTP response whose
body either decodes to JSON (`some`) or raises on response.json()
(`none`), a requests timeout, a requests connection error, or any other
exception raised during the attempt. -/
inductive AttemptResult where
  | httpResponse (status : Nat) (body : Option RespBody)
  | timeout
  | connectionError
  | unexpectedError (msg : String)
deriving DecidableEq

/-- Classification of one attempt, from src/sync.py lines 332-335: the
attempt succeeds exactly when the status code is 200 and the decoded
body has a truthy `success` field. A 200 response whose body fails to
decode raises inside the try block and is a failed attempt. -/
def attemptOk : AttemptResult → Bool
  | .httpResponse status (some b) => status == 200 && b.success
  | _ => false

/-- Error message a failed attempt records (the error_msg assignments in
src/sync.py lines 344, 348, 364, 371, 379). For an API-reported failure
it is the body `error` field with default "Unknown error"; for a non-200
status it names the status; timeouts, connection errors and other
exceptions record their descriptions. A 200 response with an undecodable
body raises a json decode error caught by the generic except branch; the
text of that library exception is summarized here. A successful attempt
records nothing. -/
def attemptErrorMsg (tableName apiBaseUrl : String) : AttemptResult → Option String
  | .httpResponse status (some b) =>
      if status == 200 then
        if b.success then none
        else some (b.error.getD "Unknown error")
      else some ("HTTP Error " ++ toString status ++ " for " ++ tableName)
  | .httpResponse status none =>
      if status == 200 then
        some ("Unexpected error for " ++ tableName ++ ": response body is not valid JSON")
      else some ("HTTP Error " ++ toString status ++ " for " ++ tableName)
  | .timeout => some ("Timeout error for " ++ tableName ++ " (5 minutes)")
  | .connectionError =>
      some ("Connection error for " ++ tableName
        ++ " - Check if Django server is running at " ++ apiBaseUrl)
  | .unexpectedError m => some ("Unexpected error for " ++ tableName ++ ": " ++ m)

/-- Records counted on a successful attempt, from src/sync.py line 337:
the response body `records_processed` field when present, else the
number of rows sent. Only reached when the attempt succeeded, so the
catch-all branch is dead. -/
def successRecords (res : AttemptResult) (rowsSent : Nat) : Nat :=
  match res with
  | .httpResponse _ (some b) => b.records_processed.getD rowsSent
  | _ => rowsSent

/-- Observable side effects of the retry loop: an HTTP POST (with its
zero-based attempt index) and a blocking sleep of a number of seconds. -/
inductive SyncEvent where
  | request (idx : Nat)
  | sleep (seconds : Nat)
deriving DecidableEq

/-- Outcome of syncing one table, the SyncOutcome of the specification:
the boolean the function returns, the number of attempts made, the last
error message recorded by a failed attempt (the code logs it; the
returned value itself is only a boolean), the records counted on
success, and the trace of network and sleep events. -/
structure SyncResult where
  success : Bool
  attemptsUsed : Nat
  lastError : Option String
  recordsProcessed : Nat
  events : List SyncEvent
deriving DecidableEq

/-- Body of `for retry in range(3)` from src/sync.py lines 316-384,
recursing over the remaining retry indices. On a successful attempt the
loop breaks at once (no sleep). On a failed attempt the error message is
recorded and, when the index is below 2, the loop sleeps 5 seconds
before the next attempt (lines 359-361 and the matching branches of the
exception handlers); there is no sleep after the final attempt. -/
def syncLoopAux (tn url : String) (rowsSent : Nat) (att : Nat → AttemptResult) :
    List Nat → Option String → SyncResult
  | [], lastErr =>
      { success := false, attemptsUsed := 0, lastError := lastErr,
        recordsProcessed := 0, events := [] }
  | r :: rest, _ =>
      if attemptOk (att r) then
        { success := true, attemptsUsed := 1, lastError := none,
          recordsProcessed := successRecords (att r) rowsSent,
          events := [SyncEvent.request r] }
      else
        let tail := syncLoopAux tn url rowsSent att rest (attemptErrorMsg tn url (att r))
        { success := tail.success, attemptsUsed := tail.attemptsUsed + 1,
          lastError := tail.lastError, recordsProcessed := tail.recordsProcessed,
          events := (if r < 2 then [SyncEvent.request r, SyncEvent.sleep 5]
                     else [SyncEvent.request r]) ++ tail.events }

/-- sync_table_to_api from src/sync.py lines 287-406: with no data it
warns and returns success immediately, making no network call; otherwise
it runs the three-attempt retry loop against the environment `att`,
which gives the result of the k-th HTTP POST. -/
def sync_table_to_api (tn url : String) (data : List Row) (att : Nat → AttemptResult) :
    SyncResult :=
  if data.isEmpty then
    { success := true, attemptsUsed := 0, lastError := none,
      recordsProcessed := 0, events := [] }
  else
    syncLoopAux tn url data.length att [0, 1, 2] none

/-- Expected event trace of n attempts starting at index `start`:
requests in order with a five-second sleep between each consecutive pair
and no sleep after the last request. -/
def traceFrom (start : Nat) : Nat → List SyncEvent
  | 0 => []
  | 1 => [SyncEvent.request start]
  | n + 2 => SyncEvent.request start :: SyncEvent.sleep 5 ::
      traceFrom (start + 1) (n + 1)

/-- Data held by an open cursor after a successful execute: the column
names from cursor.description and the fetched raw rows. -/
structure CursorData where
  description : List String
  raw : List (List Value)
deriving DecidableEq

/-- Environment for one database query: either the cursor executes and
yields data, or cursor.execute raises pyodbc.Error with a message. -/
inductive QueryBehavior where
  | ok (c : CursorData)
  | raisesError (msg : String)
deriving DecidableEq

/-- Result of execute_query together with the cursor resource state:
whether cursor.close() was called before the function returned. -/
structure QueryResult where
  results : List Row
  cursorClosed : Bool
deriving DecidableEq

/-- execute_query from src/sync.py lines 158-175. On success it builds
dict(zip(columns, row)) for each fetched row and then calls
cursor.close(). When the query raises pyodbc.Error, the except branch
returns an empty list; that path contains no cursor.close() call and the
function has no finally block, so the cursor is left open. -/
def execute_query (qb : QueryBehavior) : QueryResult :=
  match qb with
  | .ok c =>
      { results := c.raw.map (fun row => c.description.zip row),
        cursorClosed := true }
  | .raisesError _ =>
      { results := [], cursorClosed := false }

/-- Quoted identifier pair "table"."column" as interpolated by the
f-strings of get_table_query. -/
def qcol (t c : String) : String :=
  "\x22" ++ t ++ "\x22.\x22" ++ c ++ "\x22"

/-- Single-quote character, used inside SQL string literals. -/
def sq : String := String.singleton (Char.ofNat 39)

/-- SQL string literal with single quotes. -/
def sqlLit (s : String) : String := sq ++ s ++ sq

/-- Extraction query for rrc_clients, src/sync.py lines 181-206, with
whitespace normalized to single spaces. -/
def rrcClientsQuery (t : String) : String :=
  "SELECT "
    ++ qcol t "code" ++ ", "
    ++ qcol t "name" ++ ", "
    ++ qcol t "address" ++ ", "
    ++ qcol t "branch" ++ ", "
    ++ qcol t "district" ++ ", "
    ++ qcol t "state" ++ ", "
    ++ qcol "rrc_product" "name" ++ " AS \x22software\x22, "
    ++ qcol t "mobile" ++ ", "
    ++ qcol t "installationdate" ++ ", "
    ++ qcol t "priorty" ++ ", "
    ++ qcol t "directdealing" ++ ", "
    ++ qcol t "rout" ++ ", "
    ++ qcol t "amc" ++ ", "
    ++ qcol t "amcamt" ++ ", "
    ++ qcol t "accountcode" ++ ", "
    ++ qcol t "address3" ++ ", "
    ++ qcol t "lictype" ++ ", "
    ++ qcol t "clients" ++ ", "
    ++ qcol t "sp" ++ ", "
    ++ qcol t "nature"
    ++ " FROM \x22" ++ t ++ "\x22 LEFT JOIN \x22rrc_product\x22 ON "
    ++ qcol t "software" ++ " = " ++ qcol "rrc_product" "code"
    ++ " WHERE " ++ qcol t "directdealing"
    ++ " IN (" ++ sqlLit "Y" ++ "," ++ sqlLit "S" ++ ")"

/-- Extraction query for acc_master, src/sync.py lines 208-221, with
whitespace normalized to single spaces. -/
def accMasterQuery (t : String) : String :=
  "SELECT "
    ++ qcol t "code" ++ ", "
    ++ qcol t "name" ++ ", "
    ++ qcol t "super_code" ++ ", "
    ++ qcol t "opening_balance" ++ ", "
    ++ qcol t "debit" ++ ", "
    ++ qcol t "credit" ++ ", "
    ++ qcol t "place" ++ ", "
    ++ qcol t "phone2" ++ ", "
    ++ qcol t "openingdepartment"
    ++ " FROM \x22" ++ t ++ "\x22 WHERE " ++ qcol t "super_code"
    ++ " = " ++ sqlLit "DEBTO"

/-- Extraction query for acc_product, src/sync.py lines 223-235, with
whitespace normalized to single spaces. -/
def accProductQuery (t : String) : String :=
  "SELECT "
    ++ qcol t "code" ++ ", "
    ++ qcol t "name" ++ ", "
    ++ qcol t "catagory" ++ ", "
    ++ qcol t "unit" ++ ", "
    ++ qcol t "taxcode" ++ ", "
    ++ qcol t "company" ++ ", "
    ++ qcol t "product" ++ ", "
    ++ qcol t "brand" ++ ", "
    ++ qcol t "text6"
    ++ " FROM \x22" ++ t ++ "\x22"

/-- get_table_query from src/sync.py lines 178-238: the fixed query per
known table name, and the empty string for unknown names
(queries.get with default ""). -/
def get_table_query (table_name : String) : String :=
  if table_name == "rrc_clients" then rrcClientsQuery table_name
  else if table_name == "acc_master" then accMasterQuery table_name
  else if table_name == "acc_product" then accProductQuery table_name
  else ""

/-- fetch_data_from_table from src/sync.py lines 241-260: no query
defined means an empty result without touching the database; otherwise
the query runs through execute_query against the environment `qb`,
which maps a query string to the behavior of its cursor. -/
def fetch_data_from_table (qb : String → QueryBehavior) (table_name : String) :
    List Row :=
  let query := get_table_query table_name
  if query == "" then []
  else (execute_query (qb query)).results

/-- One entry of the configured table list: source name and target
table, as in HARD_CODED_CONFIG of src/sync.py lines 42-65. -/
structure TableConfig where
  name : String
  target_table : String
deriving DecidableEq

/-- The hard-coded table list of src/sync.py lines 43-56. -/
def HARD_CODED_TABLES : List TableConfig :=
  [⟨"rrc_clients", "rrc_clients"⟩, ⟨"acc_master", "acc_master"⟩,
   ⟨"acc_product", "acc_product"⟩]

/-- Python dict assignment d[k] = v on an insertion-ordered association
list: an existing key keeps its position and has its value replaced; a
new key is appended at the end. -/
def dictInsert (k : String) (v : List Row) :
    List (String × List Row) → List (String × List Row)
  | [] => [(k, v)]
  | (k0, v0) :: rest =>
      if k0 == k then (k0, v) :: rest
      else (k0, v0) :: dictInsert k v rest

/-- Python dict lookup d.get(k) on the association-list model. -/
def dictFind (k : String) : List (String × List Row) → Option (List Row)
  | [] => none
  | (k0, v0) :: rest => if k0 == k then some v0 else dictFind k rest

/-- fetch_all_data from src/sync.py lines 263-284: iterates the
configured tables in order and stores each fetched row list under the
target_table key of the all_data dict, so a repeated target_table
overwrites the earlier rows. -/
def fetch_all_data (qb : String → QueryBehavior) (tables : List TableConfig) :
    List (String × List Row) :=
  tables.foldl
    (fun acc tc => dictInsert tc.target_table (fetch_data_from_table qb tc.name) acc)
    []

/-- Accumulate the distinct keys in first-occurrence order; one step of
the key evolution of a Python dict under repeated assignment. -/
def addKey (ks : List String) (k : String) : List String :=
  if k ∈ ks then ks else ks ++ [k]

/-- Distinct elements of a list in first-occurrence order: the key list
of a Python dict built by assigning under each element in turn. -/
def firstOccurrences (l : List String) : List String :=
  l.foldl addKey []

/-- Run-level summary assembled by sync_all_data_to_api, the RunSummary
of the specification, together with the boolean the function returns. -/
structure RunSummary where
  tablesTotal : Nat
  tablesSucceeded : Nat
  tablesFailed : Nat
  totalRecordsSynced : Nat
  outcomes : List (String × SyncResult)
  overallSuccess : Bool
deriving DecidableEq

/-- Loop body of sync_all_data_to_api, src/sync.py lines 425-433: sync
one table, record its outcome, and on success increment the success
count and add len(data) - the number of rows sent, not the records
count reported by the response - to total_records_synced. -/
def syncStep (url : String) (att : String → Nat → AttemptResult)
    (acc : List (String × SyncResult) × Nat × Nat) (p : String × List Row) :
    List (String × SyncResult) × Nat × Nat :=
  let r := sync_table_to_api p.1 url p.2 (att p.1)
  (acc.1 ++ [(p.1, r)],
   if r.success then acc.2.1 + 1 else acc.2.1,
   if r.success then acc.2.2 + p.2.length else acc.2.2)

/-- sync_all_data_to_api from src/sync.py lines 409-462: folds the sync
loop over the fetched tables and builds the final summary of lines
435-451; the function returns true exactly when every table succeeded
(success_count == total_tables). -/
def sync_all_data_to_api (url : String) (allData : List (String × List Row))
    (att : String → Nat → AttemptResult) : RunSummary :=
  let st := allData.foldl (syncStep url att) ([], 0, 0)
  { tablesTotal := allData.length,
    tablesSucceeded := st.2.1,
    tablesFailed := allData.length - st.2.1,
    totalRecordsSynced := st.2.2,
    outcomes := st.1,
    overallSuccess := st.2.1 == allData.length }

/-- Exit path of main, src/sync.py lines 499-532, for a run that
completes: sys.exit(0) when sync_all_data_to_api returned true,
sys.exit(1) otherwise. -/
def main_exit_code (overallSuccess : Bool) : Nat :=
  if overallSuccess then 0 else 1

/-- Sum of recordsProcessed over the successful outcomes, the aggregate
named by the specification for totalRecordsSynced. -/
def recordsProcessedSum (outs : List (String × SyncResult)) : Nat :=
  ((outs.filter (fun o => o.2.success)).map (fun o => o.2.recordsProcessed)).sum

/-- Concrete one-column row used by witnesses and counterexamples. -/
def wRow : Row := [("code", Value.str "A1")]

/-- Concrete nonempty row list used by witnesses and counterexamples. -/
def wData : List Row := [wRow]

/-- Concrete success response that reports 42 records processed. -/
def http200ok : AttemptResult :=
  AttemptResult.httpResponse 200
    (some { success := true, error := none, records_processed := some 42 })

/-- Concrete server error response. -/
def http500 : AttemptResult := AttemptResult.httpResponse 500 none

/-- Environment whose first attempt sees HTTP 500 and whose later
attempts see a success response. -/
def retryAtt : Nat → AttemptResult :=
  fun k => if k == 0 then http500 else http200ok

/-- Environment where every attempt sees HTTP 200 with a falsy success
field and an API error message, the bad-schema scenario of the spec. -/
def badSchemaAtt : Nat → AttemptResult :=
  fun _ => AttemptResult.httpResponse 200
    (some { success := false, error := some "bad schema", records_processed := none })

/-- Concrete fetched data for the aggregation counterexample: one table
with a single row. -/
def c3AllData : List (String × List Row) := [("t1", wData)]

/-- Environment for the aggregation counterexample: every attempt for
every table succeeds and the response reports 42 records processed. -/
def c3Att : String → Nat → AttemptResult := fun _ _ => http200ok

theorem sync_table_nonempty (tn url : String) (data : List Row)
    (att : Nat → AttemptResult) (h : data ≠ []) :
    sync_table_to_api tn url data att =
      syncLoopAux tn url data.length att [0, 1, 2] none := by
  cases data with
  | nil => exact absurd rfl h
  | cons a l => rfl

theorem syncLoop_char (tn url : String) (rows : Nat) (att : Nat → AttemptResult) :
    syncLoopAux tn url rows att [0, 1, 2] none =
      if attemptOk (att 0) then
        { success := true, attemptsUsed := 1, lastError := none,
          recordsProcessed := successRecords (att 0) rows,
          events := [SyncEvent.request 0] }
      else if attemptOk (att 1) then
        { success := true, attemptsUsed := 2, lastError := none,
          recordsProcessed := successRecords (att 1) rows,
          events := [SyncEvent.request 0, SyncEvent.sleep 5, SyncEvent.request 1] }
      else if attemptOk (att 2) then
        { success := true, attemptsUsed := 3, lastError := none,
          recordsProcessed := successRecords (att 2) rows,
          events := [SyncEvent.request 0, SyncEvent.sleep 5, SyncEvent.request 1,
                     SyncEvent.sleep 5, SyncEvent.request 2] }
      else
        { success := false, attemptsUsed := 3,
          lastError := attemptErrorMsg tn url (att 2), recordsProcessed := 0,
          events := [SyncEvent.request 0, SyncEvent.sleep 5, SyncEvent.request 1,
                     SyncEvent.sleep 5, SyncEvent.request 2] } := by
  cases h0 : attemptOk (att 0) <;> cases h1 : attemptOk (att 1) <;>
    cases h2 : attemptOk (att 2) <;>
      simp [syncLoopAux, h0, h1, h2]

theorem attemptErrorMsg_ne_none (tn url : String) (res : AttemptResult)
    (h : attemptOk res = false) : attemptErrorMsg tn url res ≠ none := by
  cases res with
  | httpResponse s ob =>
      cases ob with
      | none =>
          simp only [attemptErrorMsg]
          split <;> simp
      | some b =>
          simp only [attemptOk, Bool.and_eq_false_iff] at h
          simp only [attemptErrorMsg]
          by_cases hs : (s == 200) = true
          · rcases h with h | h
            · exact absurd hs (by simp [h])
            · simp [hs, h]
          · simp [Bool.not_eq_true] at hs
            simp [hs]
  | timeout => simp [attemptErrorMsg]
  | connectionError => simp [attemptErrorMsg]
  | unexpectedError m => simp [attemptErrorMsg]

theorem syncFold_char (url : String) (att : String → Nat → AttemptResult)
    (d : List (String × List Row)) :
    ∀ acc : List (String × SyncResult) × Nat × Nat,
      d.foldl (syncStep url att) acc =
        (acc.1 ++ d.map (fun p => (p.1, sync_table_to_api p.1 url p.2 (att p.1))),
         acc.2.1 + d.countP (fun p => (sync_table_to_api p.1 url p.2 (att p.1)).success),
         acc.2.2 + ((d.filter
             (fun p => (sync_table_to_api p.1 url p.2 (att p.1)).success)).map
           (fun p => p.2.length)).sum) := by
  induction d with
  | nil => intro acc; simp
  | cons p rest ih =>
      intro acc
      rw [List.foldl_cons, ih]
      cases hs : (sync_table_to_api p.1 url p.2 (att p.1)).success <;>
        simp [syncStep, hs, List.countP_cons, List.filter_cons] <;> omega

theorem dictKeys_insert (k : String) (v : List Row)
    (d : List (String × List Row)) :
    (dictInsert k v d).map Prod.fst = addKey (d.map Prod.fst) k := by
  induction d with
  | nil => simp [dictInsert, addKey]
  | cons p rest ih =>
      obtain ⟨k0, v0⟩ := p
      by_cases hk : k0 = k
      · subst hk
        simp [dictInsert, addKey]
      · have hb : (k0 == k) = false := by simp [hk]
        by_cases hm : k ∈ rest.map Prod.fst
        · simp [dictInsert, hb, ih, addKey, hm, List.mem_cons]
        · simp [dictInsert, hb, ih, addKey, hm, List.mem_cons, Ne.symm hk]

theorem fetchAll_keys_aux (qb : String → QueryBehavior)
    (tables : List TableConfig) :
    ∀ acc : List (String × List Row),
      (tables.foldl
        (fun a tc => dictInsert tc.target_table (fetch_data_from_table qb tc.name) a)
        acc).map Prod.fst =
      (tables.map (fun tc => tc.target_table)).foldl addKey (acc.map Prod.fst) := by
  induction tables with
  | nil => intro acc; simp
  | cons tc rest ih =>
      intro acc
      rw [List.foldl_cons, ih, List.map_cons, List.foldl_cons, dictKeys_insert]

theorem fetchAll_keys (qb : String → QueryBehavior) (tables : List TableConfig) :
    (fetch_all_data qb tables).map Prod.fst =
      firstOccurrences (tables.map (fun tc => tc.target_table)) := by
  have h := fetchAll_keys_aux qb tables []
  simpa [fetch_all_data, firstOccurrences] using h

theorem mem_addKey (ks : List String) (k x : String) :
    x ∈ addKey ks k ↔ x ∈ ks ∨ x = k := by
  by_cases hm : k ∈ ks
  · simp only [addKey, if_pos hm]
    constructor
    · exact fun h => Or.inl h
    · rintro (h | h)
      · exact h
      · exact h ▸ hm
  · simp [addKey, if_neg hm, List.mem_append]

theorem mem_foldl_addKey (l : List String) :
    ∀ (acc : List String) (x : String),
      x ∈ l.foldl addKey acc ↔ x ∈ acc ∨ x ∈ l := by
  induction l with
  | nil => intro acc x; simp
  | cons a rest ih =>
      intro acc x
      rw [List.foldl_cons, ih, mem_addKey]
      simp [List.mem_cons]
      tauto

theorem mem_firstOccurrences (l : List String) (x : String) :
    x ∈ firstOccurrences l ↔ x ∈ l := by
  rw [firstOccurrences, mem_foldl_addKey]
  simp

theorem dictFind_insert_self (k : String) (v : List Row)
    (d : List (String × List Row)) :
    dictFind k (dictInsert k v d) = some v := by
  induction d with
  | nil => simp [dictInsert, dictFind]
  | cons p rest ih =>
      obtain ⟨k0, v0⟩ := p
      by_cases hk : (k0 == k) = true
      · simp [dictInsert, hk, dictFind]
      · simp only [Bool.not_eq_true] at hk
        simp [dictInsert, hk, dictFind, ih]

theorem fetchAll_append (qb : String → QueryBehavior)
    (tables : List TableConfig) (tc : TableConfig) :
    fetch_all_data qb (tables ++ [tc]) =
      dictInsert tc.target_table (fetch_data_from_table qb tc.name)
        (fetch_all_data qb tables) := by
  simp [fetch_all_data, List.foldl_append]

theorem syncAll_outcomes (url : String) (d : List (String × List Row))
    (att : String → Nat → AttemptResult) :
    (sync_all_data_to_api url d att).outcomes =
      d.map (fun p => (p.1, sync_table_to_api p.1 url p.2 (att p.1))) := by
  show (d.foldl (syncStep url att) ([], 0, 0)).1 = _
  rw [syncFold_char url att d ([], 0, 0)]
  simp

theorem syncAll_succeeded (url : String) (d : List (String × List Row))
    (att : String → Nat → AttemptResult) :
    (sync_all_data_to_api url d att).tablesSucceeded =
      d.countP (fun p => (sync_table_to_api p.1 url p.2 (att p.1)).success) := by
  show (d.foldl (syncStep url att) ([], 0, 0)).2.1 = _
  rw [syncFold_char url att d ([], 0, 0)]
  simp

theorem syncAll_overall (url : String) (d : List (String × List Row))
    (att : String → Nat → AttemptResult) :
    (sync_all_data_to_api url d att).overallSuccess =
      (d.countP (fun p => (sync_table_to_api p.1 url p.2 (att p.1)).success)
        == d.length) := by
  show ((d.foldl (syncStep url att) ([], 0, 0)).2.1 == d.length) = _
  rw [syncFold_char url att d ([], 0, 0)]
  simp

theorem main_exit_zero (b : Bool) : main_exit_code b = 0 ↔ b = true := by
  cases b <;> simp [main_exit_code]

/-- C4: for every table whose row sequence is empty, sync_table_to_api
returns success with zero records processed and an empty event trace,
so no network call is made. -/
theorem empty_rows_short_circuit (tn url : String) (att : Nat → AttemptResult) :
    (sync_table_to_api tn url [] att).success = true ∧
    (sync_table_to_api tn url [] att).recordsProcessed = 0 ∧
    (sync_table_to_api tn url [] att).events = [] ∧
    (sync_table_to_api tn url [] att).attemptsUsed = 0 :=
  ⟨rfl, rfl, rfl, rfl⟩

/-- C9: the row normalizer is idempotent; applying normalizeValue to any
already-normalized value returns it unchanged, since normalization
produces only floats, ISO strings and pass-through scalars, each of
which the encoder leaves alone. -/
theorem normalizer_idempotent (v : Value) :
    normalizeValue (normalizeValue v) = normalizeValue v := by
  cases v <;> rfl

/-- C8: execute_query closes the cursor on the success path, but when
the query raises pyodbc.Error the except branch returns an empty result
list without closing the cursor - the code has no finally block, so the
per-query cursor is leaked on the failure path, contradicting the claim
that it is closed on every exit path. -/
theorem cursor_left_open_on_query_failure (msg : String) (c : CursorData) :
    (execute_query (QueryBehavior.ok c)).cursorClosed = true ∧
    (execute_query (QueryBehavior.raisesError msg)).cursorClosed = false ∧
    (execute_query (QueryBehavior.raisesError msg)).results = [] :=
  ⟨rfl, rfl, rfl⟩

/-- C3 counterexample: with one table of one row whose sync succeeds on
the first attempt and whose response reports records_processed = 42,
the summary counts 1 (the number of rows sent), not the 42 that the sum
of recordsProcessed over successful outcomes yields, so the claim fails
as stated. -/
theorem totalRecords_counterexample :
    (sync_all_data_to_api "u" c3AllData c3Att).totalRecordsSynced = 1 ∧
    recordsProcessedSum (sync_all_data_to_api "u" c3AllData c3Att).outcomes = 42 ∧
    (sync_all_data_to_api "u" c3AllData c3Att).totalRecordsSynced ≠
      recordsProcessedSum (sync_all_data_to_api "u" c3AllData c3Att).outcomes := by
  refine ⟨by decide, by decide, by decide⟩

/-- C3 amended: the run summary totalRecordsSynced equals the sum of
the counts of rows sent over the tables whose sync succeeded; the
records_processed value reported by the response is used only in the
per-table log message, never in the aggregate. -/
theorem totalRecords_sums_rows_sent (url : String)
    (allData : List (String × List Row)) (att : String → Nat → AttemptResult) :
    (sync_all_data_to_api url allData att).totalRecordsSynced =
      ((allData.filter
          (fun p => (sync_table_to_api p.1 url p.2 (att p.1)).success)).map
        (fun p => p.2.length)).sum := by
  show (allData.foldl (syncStep url att) ([], 0, 0)).2.2 = _
  rw [syncFold_char url att allData ([], 0, 0)]
  simp

/-- C7: a completed run is reported successful exactly when every table
outcome has success = true, and the process exit code is 0 exactly in
that case (and 1, hence nonzero, otherwise). -/
theorem overall_success_iff_all_tables (url : String)
    (allData : List (String × List Row)) (att : String → Nat → AttemptResult) :
    ((sync_all_data_to_api url allData att).overallSuccess = true ↔
      (sync_all_data_to_api url allData att).outcomes.all
        (fun o => o.2.success) = true) ∧
    (main_exit_code (sync_all_data_to_api url allData att).overallSuccess = 0 ↔
      (sync_all_data_to_api url allData att).outcomes.all
        (fun o => o.2.success) = true) := by
  have hall : ((sync_all_data_to_api url allData att).outcomes.all
      (fun o => o.2.success) = true) ↔
      (∀ p ∈ allData, (sync_table_to_api p.1 url p.2 (att p.1)).success = true) := by
    rw [syncAll_outcomes, List.all_eq_true]
    constructor
    · intro h p hp
      have := h (p.1, sync_table_to_api p.1 url p.2 (att p.1))
        (List.mem_map_of_mem _ hp)
      simpa using this
    · intro h o ho
      rw [List.mem_map] at ho
      obtain ⟨p, hp, rfl⟩ := ho
      simpa using h p hp
  have hkey : ((sync_all_data_to_api url allData att).overallSuccess = true) ↔
      (∀ p ∈ allData, (sync_table_to_api p.1 url p.2 (att p.1)).success = true) := by
    rw [syncAll_overall, beq_iff_eq, List.countP_eq_length]
  constructor
  · rw [hall, hkey]
  · rw [hall, ← hkey, main_exit_zero]

/-- C6: per-table isolation. The outcomes of a run are exactly the
per-table results of sync_table_to_api applied to each fetched entry in
order, so one table failing (extraction yielding zero rows or delivery
failing on every attempt) never changes any other table entry, and
every configured table target appears among the fetched keys even when
its own or an earlier query fails. -/
theorem per_table_isolation (qb : String → QueryBehavior)
    (tables : List TableConfig) (att : String → Nat → AttemptResult)
    (url : String) :
    (sync_all_data_to_api url (fetch_all_data qb tables) att).outcomes =
      (fetch_all_data qb tables).map
        (fun p => (p.1, sync_table_to_api p.1 url p.2 (att p.1))) ∧
    (tables.map (fun tc => tc.target_table)).all
      (fun t => ((fetch_all_data qb tables).map Prod.fst).contains t) = true := by
  constructor
  · exact syncAll_outcomes url (fetch_all_data qb tables) att
  · rw [List.all_eq_true]
    intro t ht
    rw [fetchAll_keys]
    have hmem : t ∈ firstOccurrences (tables.map (fun tc => tc.target_table)) :=
      (mem_firstOccurrences _ t).mpr ht
    exact List.elem_iff.mpr hmem

/-- C10: the fetched data is keyed by target_table. The key list equals
the distinct target names in first-occurrence order, the run summary
total table count is the number of distinct target names, and appending
a later table config with some target name makes its rows the ones
stored under that key, replacing any earlier rows for the same target. -/
theorem target_table_keying (qb : String → QueryBehavior)
    (tables : List TableConfig) (tc : TableConfig)
    (att : String → Nat → AttemptResult) (url : String) :
    (fetch_all_data qb tables).map Prod.fst =
      firstOccurrences (tables.map (fun t => t.target_table)) ∧
    (sync_all_data_to_api url (fetch_all_data qb tables) att).tablesTotal =
      (firstOccurrences (tables.map (fun t => t.target_table))).length ∧
    dictFind tc.target_table (fetch_all_data qb (tables ++ [tc])) =
      some (fetch_data_from_table qb tc.name) := by
  refine ⟨fetchAll_keys qb tables, ?_, ?_⟩
  · show (fetch_all_data qb tables).length = _
    rw [← fetchAll_keys qb tables, List.length_map]
  · rw [fetchAll_append, dictFind_insert_self]

/-- C1: an attempt is classified successful exactly when the HTTP status
is 200 and the decoded body has a truthy success field; the table sync
succeeds exactly when one of the at most three attempts is successful;
and after a failed attempt that is not the last one (all attempts so
far failed), the next attempt is made. -/
theorem attempt_success_classification
    (tn url : String) (data : List Row) (att : Nat → AttemptResult)
    (hne : data ≠ []) :
    (∀ res : AttemptResult, attemptOk res = true ↔
        ∃ b : RespBody,
          res = AttemptResult.httpResponse 200 (some b) ∧ b.success = true) ∧
    ((sync_table_to_api tn url data att).success = true ↔
        ∃ k, k < 3 ∧ attemptOk (att k) = true) ∧
    (∀ k, k < 2 → (∀ j, j ≤ k → attemptOk (att j) = false) →
        SyncEvent.request (k + 1) ∈ (sync_table_to_api tn url data att).events) := by
  refine ⟨?_, ?_, ?_⟩
  · intro res
    cases res with
    | httpResponse s ob =>
        cases ob with
        | none => simp [attemptOk]
        | some b =>
            simp only [attemptOk, Bool.and_eq_true, beq_iff_eq,
              AttemptResult.httpResponse.injEq, Option.some.injEq]
            constructor
            · rintro ⟨rfl, hb⟩
              exact ⟨b, ⟨rfl, rfl⟩, hb⟩
            · rintro ⟨b2, ⟨rfl, rfl⟩, hb⟩
              exact ⟨rfl, hb⟩
    | timeout => simp [attemptOk]
    | connectionError => simp [attemptOk]
    | unexpectedError m => simp [attemptOk]
  · rw [sync_table_nonempty tn url data att hne, syncLoop_char]
    by_cases h0 : attemptOk (att 0) = true
    · rw [if_pos h0]
      exact iff_of_true rfl ⟨0, by omega, h0⟩
    · rw [if_neg h0]
      by_cases h1 : attemptOk (att 1) = true
      · rw [if_pos h1]
        exact iff_of_true rfl ⟨1, by omega, h1⟩
      · rw [if_neg h1]
        by_cases h2 : attemptOk (att 2) = true
        · rw [if_pos h2]
          exact iff_of_true rfl ⟨2, by omega, h2⟩
        · rw [if_neg h2]
          refine iff_of_false (by simp) ?_
          rintro ⟨k, hk, hok⟩
          interval_cases k
          · exact h0 hok
          · exact h1 hok
          · exact h2 hok
  · intro k hk hcov
    rw [sync_table_nonempty tn url data att hne, syncLoop_char]
    have h0 : attemptOk (att 0) = false := hcov 0 (by omega)
    interval_cases k
    · rw [if_neg (by simp [h0])]
      by_cases h1 : attemptOk (att 1) = true
      · rw [if_pos h1]; simp
      · rw [if_neg h1]
        by_cases h2 : attemptOk (att 2) = true
        · rw [if_pos h2]; simp
        · rw [if_neg h2]; simp
    · have h1 : attemptOk (att 1) = false := hcov 1 (by omega)
      rw [if_neg (by simp [h0]), if_neg (by simp [h1])]
      by_cases h2 : attemptOk (att 2) = true
      · rw [if_pos h2]; simp
      · rw [if_neg h2]; simp

theorem attempt_success_classification_witness :
    (sync_table_to_api "t" "u" wData retryAtt).success = true ∧
    SyncEvent.request 1 ∈ (sync_table_to_api "t" "u" wData retryAtt).events := by
  have h := attempt_success_classification "t" "u" wData retryAtt (by decide)
  refine ⟨h.2.1.mpr ⟨1, by omega, by decide⟩, ?_⟩
  exact h.2.2 0 (by omega) (fun j hj => by interval_cases j; decide)

/-- C2: for nonempty data the loop makes between one and three
attempts, the event trace is exactly the attempted requests with a
five-second sleep between each consecutive pair and no sleep after the
final one, and when the first successful attempt is attempt k
(zero-based) exactly k + 1 attempts are made, so nothing follows a
successful attempt. -/
theorem delivery_retry_policy (tn url : String) (data : List Row)
    (att : Nat → AttemptResult) (hne : data ≠ []) :
    1 ≤ (sync_table_to_api tn url data att).attemptsUsed ∧
    (sync_table_to_api tn url data att).attemptsUsed ≤ 3 ∧
    (sync_table_to_api tn url data att).events =
      traceFrom 0 (sync_table_to_api tn url data att).attemptsUsed ∧
    (∀ k, k < 3 → attemptOk (att k) = true →
      (∀ j, j < k → attemptOk (att j) = false) →
      (sync_table_to_api tn url data att).attemptsUsed = k + 1) := by
  rw [sync_table_nonempty tn url data att hne, syncLoop_char]
  by_cases h0 : attemptOk (att 0) = true
  · rw [if_pos h0]
    refine ⟨(by decide : (1:Nat) ≤ 1), (by decide : (1:Nat) ≤ 3), rfl, ?_⟩
    intro k hk hok hprev
    interval_cases k
    · rfl
    · exact absurd h0 (by simp [hprev 0 (by omega)])
    · exact absurd h0 (by simp [hprev 0 (by omega)])
  · rw [if_neg h0]
    have h0f : attemptOk (att 0) = false := by simpa using h0
    by_cases h1 : attemptOk (att 1) = true
    · rw [if_pos h1]
      refine ⟨(by decide : (1:Nat) ≤ 2), (by decide : (2:Nat) ≤ 3), rfl, ?_⟩
      intro k hk hok hprev
      interval_cases k
      · exact absurd hok (by simp [h0f])
      · rfl
      · exact absurd h1 (by simp [hprev 1 (by omega)])
    · rw [if_neg h1]
      have h1f : attemptOk (att 1) = false := by simpa using h1
      by_cases h2 : attemptOk (att 2) = true
      · rw [if_pos h2]
        refine ⟨(by decide : (1:Nat) ≤ 3), (by decide : (3:Nat) ≤ 3), rfl, ?_⟩
        intro k hk hok hprev
        interval_cases k
        · exact absurd hok (by simp [h0f])
        · exact absurd hok (by simp [h1f])
        · rfl
      · rw [if_neg h2]
        have h2f : attemptOk (att 2) = false := by simpa using h2
        refine ⟨(by decide : (1:Nat) ≤ 3), (by decide : (3:Nat) ≤ 3), rfl, ?_⟩
        intro k hk hok hprev
        interval_cases k
        · exact absurd hok (by simp [h0f])
        · exact absurd hok (by simp [h1f])
        · exact absurd hok (by simp [h2f])

theorem delivery_retry_policy_witness :
    1 ≤ (sync_table_to_api "t" "u2" wData retryAtt).attemptsUsed ∧
    (sync_table_to_api "t" "u2" wData retryAtt).attemptsUsed ≤ 3 ∧
    (sync_table_to_api "t" "u2" wData retryAtt).events =
      traceFrom 0 (sync_table_to_api "t" "u2" wData retryAtt).attemptsUsed := by
  have h := delivery_retry_policy "t" "u2" wData retryAtt (by decide)
  exact ⟨h.1, h.2.1, h.2.2.1⟩

/-- C5: when all three attempts fail, the outcome is failure with three
attempts used, and the recorded error detail is exactly the failure
reason of the last attempt (HTTP status, API error message, exception
text, or timeout/connection description) and is never empty. -/
theorem exhausted_failure_outcome (tn url : String) (data : List Row)
    (att : Nat → AttemptResult) (hne : data ≠ [])
    (hfail : ∀ k, k < 3 → attemptOk (att k) = false) :
    (sync_table_to_api tn url data att).success = false ∧
    (sync_table_to_api tn url data att).attemptsUsed = 3 ∧
    (sync_table_to_api tn url data att).lastError =
      attemptErrorMsg tn url (att 2) ∧
    (sync_table_to_api tn url data att).lastError ≠ none := by
  rw [sync_table_nonempty tn url data att hne, syncLoop_char]
  rw [if_neg (by simp [hfail 0 (by omega)]), if_neg (by simp [hfail 1 (by omega)]),
    if_neg (by simp [hfail 2 (by omega)])]
  exact ⟨rfl, rfl, rfl, attemptErrorMsg_ne_none tn url (att 2) (hfail 2 (by omega))⟩

theorem exhausted_failure_outcome_witness :
    (sync_table_to_api "t2" "u" wData badSchemaAtt).success = false ∧
    (sync_table_to_api "t2" "u" wData badSchemaAtt).attemptsUsed = 3 ∧
    (sync_table_to_api "t2" "u" wData badSchemaAtt).lastError =
      attemptErrorMsg "t2" "u" (badSchemaAtt 2) ∧
    (sync_table_to_api "t2" "u" wData badSchemaAtt).lastError ≠ none :=
  exhausted_failure_outcome "t2" "u" wData badSchemaAtt (by decide) (by decide)

end RRCSync
